import Mathlib

/-!
Shallow embedding of the Colo repository's card-UI components and proofs
about their rendering contract.

The embedding follows the TypeScript/JSX sources:
* `Card` (the CardView component, with its `colorMap` table, the `iconify`
  glyph mapping and the `Corner` sub-component);
* `DraggableCard` (the DraggableContainer wrapper around a motion.div);
* `Home` (the demo page composing a button, a heading and two
  drag-wrapped cards).

Rendering is modelled as a pure function from props to a record of the
observable visual output (class lists, background, corner glyph labels,
central glyph and its size class).  The runtime `throw` for a missing
color is modelled with `Except String`.
-/

/-- The CardColor enumeration: `type Color = "pink" | "orange" | "lime" | "violet"`. -/
inductive Color where
  | pink
  | orange
  | lime
  | violet
  deriving DecidableEq, BEq

/-- The CardValue enumeration: the ten digits, "+2", "+4", "skip", "reverse", "wild". -/
inductive Value where
  | d0
  | d1
  | d2
  | d3
  | d4
  | d5
  | d6
  | d7
  | d8
  | d9
  | plus2
  | plus4
  | skip
  | reverse
  | wild
  deriving DecidableEq, BEq

/-- The literal text of a `Value`: the TypeScript string the union member stands for.
In the source a `Value` IS this string, so `value.length` in the JSX is the length
of this text. -/
def Value.text : Value → String
  | .d0 => "0"
  | .d1 => "1"
  | .d2 => "2"
  | .d3 => "3"
  | .d4 => "4"
  | .d5 => "5"
  | .d6 => "6"
  | .d7 => "7"
  | .d8 => "8"
  | .d9 => "9"
  | .plus2 => "+2"
  | .plus4 => "+4"
  | .skip => "skip"
  | .reverse => "reverse"
  | .wild => "wild"

/-- `value === "+4" || value === "wild"`: the color-neutral (wild-family) values. -/
def Value.neutral (v : Value) : Bool :=
  v == Value.plus4 || v == Value.wild

/-- The digit values "0".."9". -/
def Value.isDigit : Value → Bool
  | .d0 | .d1 | .d2 | .d3 | .d4 | .d5 | .d6 | .d7 | .d8 | .d9 => true
  | _ => false

/-- The `iconify` switch of the Card component: "skip", "reverse" and "wild" map to
glyph symbols, every other value falls through to its literal text. -/
def iconify (v : Value) : String :=
  match v with
  | .skip => "⛔"
  | .reverse => "🔄"
  | .wild => "🎨"
  | _ => v.text

/-- The `colorMap` table: CardColor to two-stop gradient class string. -/
def colorMap : Color → String
  | .pink => "from-pink-400 to-pink-600"
  | .orange => "from-orange-300 to-orange-500"
  | .lime => "from-lime-300  to-lime-500"
  | .violet => "from-violet-400 to-violet-600"

/-- The message of the error thrown when a non-neutral value is rendered without a color. -/
def missingColorMessage : String := "Color is required for this card value."

/-- Output of the `Corner` sub-component: its class-name arguments and the glyph shown. -/
structure CornerNode where
  classes : List String
  glyph : String
  deriving DecidableEq

/-- The `Corner` sub-component: a span with the fixed corner classes plus the caller's
positioning classes, showing `iconify value`. -/
def Corner (value : Value) (className : String) : CornerNode :=
  { classes := ["absolute text-white text-xs font-bold select-none", className]
    glyph := iconify value }

/-- Splits a character list into the space-separated words it spells, accumulating the
current word in reverse. -/
def splitClassesAux : List Char → List Char → List String
  | [], acc => [String.mk acc.reverse]
  | ch :: cs, acc =>
    if ch = ' ' then String.mk acc.reverse :: splitClassesAux cs []
    else splitClassesAux cs (ch :: acc)

/-- The individual class tokens a class string holds (its space-separated words). -/
def classTokens (s : String) : List String :=
  splitClassesAux s.toList []

/-- The class tokens of a corner node: the tokens of all its class strings. -/
def cornerTokens (c : CornerNode) : List String :=
  (c.classes.map classTokens).flatten

/-- Whether a corner node is positioned at the top-left corner. -/
def cornerIsTopLeft (c : CornerNode) : Bool :=
  (cornerTokens c).contains "top-2" && (cornerTokens c).contains "left-2"

/-- Whether a corner node is positioned at the bottom-right corner. -/
def cornerIsBottomRight (c : CornerNode) : Bool :=
  (cornerTokens c).contains "bottom-2" && (cornerTokens c).contains "right-2"

/-- Whether a corner node carries the 180-degree rotation class. -/
def cornerRotated180 (c : CornerNode) : Bool :=
  (cornerTokens c).contains "rotate-180"

/-- Observable output of a successful Card render: the root div's class list (the
class-name arguments, in order, with absent ones dropped, as handed to the
class-composition utility), the chosen background class, the diagonal overlay's
classes, the top highlight band's classes, the two corner glyph labels, and the
central glyph with its size class. -/
structure CardNode where
  rootClasses : List String
  bg : String
  overlayClasses : List String
  topHighlightClasses : List String
  corner1 : CornerNode
  corner2 : CornerNode
  centralClasses : List String
  centralSize : String
  centralGlyph : String
  deriving DecidableEq

/-- The size class of the central glyph: `value.length > 2 ? "text-3xl" : "text-6xl"`.
The source measures the length of the value's literal text, not of the glyph
`iconify` displays. -/
def centralSizeClass (value : Value) : String :=
  if 2 < value.text.length then "text-3xl" else "text-6xl"

/-- The Card component. Props are `color?`, `value`, `className?`; a non-neutral value
without a color throws (`Except.error`), otherwise the visual node is produced.
The `color.getD Color.pink` renders the source's `color!` non-null assertion; the
default is unreachable because the branch is taken only when `neutral` is true or,
by the guard above it, `color` is present. -/
def Card (color : Option Color) (value : Value) (className : Option String) :
    Except String CardNode :=
  let neutral := value.neutral
  if !neutral && !color.isSome then
    Except.error missingColorMessage
  else
    let bg :=
      if neutral then "bg-[#1e3a8a]"
      else "bg-gradient-to-br " ++ colorMap (color.getD Color.pink)
    Except.ok
      { rootClasses :=
          (["relative w-32 overflow-hidden h-52 rounded-[18px] border-[2px] border-black/30",
            bg,
            "shadow-[inset_0_0_0_4px_rgba(255,255,255,0.9)]",
            "shadow-lg"].map some ++ [className]).filterMap id
        bg := bg
        overlayClasses :=
          ["absolute inset-0 block origin-top-left rotate-12",
           if neutral then "bg-gradient-to-br from-white/10 via-white/5 to-transparent"
           else "bg-white/20",
           "mix-blend-overlay pointer-events-none"]
        topHighlightClasses :=
          ["absolute inset-x-0 top-0 h-1/3 rounded-t-[14px] bg-white/15 blur-[6px] pointer-events-none"]
        corner1 := Corner value "top-2 left-2"
        corner2 := Corner value "bottom-2 right-2 rotate-180"
        centralClasses :=
          ["absolute inset-0 flex items-center justify-center text-white font-extrabold drop-shadow-md",
           centralSizeClass value]
        centralSize := centralSizeClass value
        centralGlyph := iconify value }

/-- The framer-motion `drag` prop: disabled, restricted to one axis, or free on both
axes (the bare `drag` attribute of the source). -/
inductive DragProp where
  | disabled
  | axisX
  | axisY
  | both
  deriving DecidableEq

/-- The configuration DraggableCard hands to the motion.div gesture primitive. -/
structure MotionDivConfig where
  drag : DragProp
  dragSnapToOrigin : Bool
  dragElastic : ℚ
  whileDragScale : ℚ
  whileDragRotate : ℚ
  transitionType : String
  stiffness : ℚ
  damping : ℚ
  className : String
  deriving DecidableEq

/-- Output of DraggableCard: the configured motion.div wrapping the child subtree. -/
structure DraggableNode (α : Type) where
  config : MotionDivConfig
  children : α

/-- The DraggableCard component: wraps its children in a motion.div with drag enabled,
snap-to-origin, elasticity 0.2, a whileDrag transform of scale 1.1 and rotate 5, and
a spring transition with stiffness 300 and damping 20. -/
def DraggableCard {α : Type} (children : α) : DraggableNode α :=
  { config :=
      { drag := DragProp.both
        dragSnapToOrigin := true
        dragElastic := 0.2
        whileDragScale := 1.1
        whileDragRotate := 5
        transitionType := "spring"
        stiffness := 300
        damping := 20
        className := "cursor-grab active:cursor-grabbing" }
    children := children }

/-- A child of the demo page's root div: the button, a literal text node, the heading,
or a drag-wrapped card render. -/
inductive HomeChild where
  | button (label : String)
  | text (s : String)
  | heading (className : String) (content : String)
  | wrapped (node : DraggableNode (Except String CardNode))

/-- Whether a home child is the button. -/
def HomeChild.isButton : HomeChild → Bool
  | .button _ => true
  | _ => false

/-- Whether a home child is the heading. -/
def HomeChild.isHeading : HomeChild → Bool
  | .heading _ _ => true
  | _ => false

/-- Whether a home child is a drag-wrapped subtree. -/
def HomeChild.isWrapped : HomeChild → Bool
  | .wrapped _ => true
  | _ => false

/-- The subtree a drag-wrapped home child carries, if it is one. -/
def HomeChild.wrappedChildren : HomeChild → Option (Except String CardNode)
  | .wrapped n => some n.children
  | _ => none

/-- The demo page (`Home` in page.tsx): a button, a stray ";" text node, a heading,
and two DraggableCard-wrapped Card renders — a colored numeric card and a wild card. -/
def Home : List HomeChild :=
  [HomeChild.button "Button",
   HomeChild.text ";",
   HomeChild.heading "bg-primary" "ghdfkjgfhd",
   HomeChild.wrapped (DraggableCard (Card (some Color.orange) Value.d1 none)),
   HomeChild.wrapped (DraggableCard (Card none Value.wild none))]

/-- C1: Card raises exactly one error kind, and raises it if and only if the value is
outside the neutral set and no color is supplied: the render succeeds exactly when the
value is neutral or a color is present, and any failure is the missing-color error. -/
theorem card_error_exactly_missing_color (v : Value) (c : Option Color) (cls : Option String) :
    Except.isOk (Card c v cls) = (v.neutral || c.isSome) ∧
    (Card c v cls = Except.error missingColorMessage ∨ Except.isOk (Card c v cls) = true) := by
  cases v <;> cases c <;> first
    | exact ⟨rfl, Or.inl rfl⟩
    | exact ⟨rfl, Or.inr rfl⟩

/-- C3: for every neutral value the color argument has no influence: any two color
arguments give identical output, the render succeeds, and the background is the fixed
neutral one. -/
theorem neutral_render_ignores_color (v : Value) (c1 c2 : Option Color) (cls : Option String)
    (h : v.neutral = true) :
    Card c1 v cls = Card c2 v cls ∧
    (Card c1 v cls).map CardNode.bg = Except.ok "bg-[#1e3a8a]" := by
  cases v <;> first
    | exact absurd h (by decide)
    | exact ⟨by cases c1 <;> cases c2 <;> rfl, by cases c1 <;> rfl⟩

/-- C3 witness: at value "wild" with colors pink and absent. -/
theorem neutral_render_ignores_color_witness :
    Value.wild.neutral = true ∧
    (Card (some Color.pink) Value.wild none = Card none Value.wild none ∧
     (Card (some Color.pink) Value.wild none).map CardNode.bg = Except.ok "bg-[#1e3a8a]") :=
  ⟨by decide, neutral_render_ignores_color Value.wild (some Color.pink) none none (by decide)⟩

/-- C4: the glyph mapping is total on the closed CardValue enumeration: "skip" maps to
the prohibition symbol, "reverse" to the cyclic-arrow symbol, "wild" to the palette
symbol, every digit to itself, and "+2" and "+4" to their literal text. -/
theorem iconify_table :
    iconify Value.skip = "⛔" ∧
    iconify Value.reverse = "🔄" ∧
    iconify Value.wild = "🎨" ∧
    iconify Value.d0 = "0" ∧
    iconify Value.d1 = "1" ∧
    iconify Value.d2 = "2" ∧
    iconify Value.d3 = "3" ∧
    iconify Value.d4 = "4" ∧
    iconify Value.d5 = "5" ∧
    iconify Value.d6 = "6" ∧
    iconify Value.d7 = "7" ∧
    iconify Value.d8 = "8" ∧
    iconify Value.d9 = "9" ∧
    iconify Value.plus2 = Value.plus2.text ∧
    iconify Value.plus4 = Value.plus4.text ∧
    Value.plus2.text = "+2" ∧
    Value.plus4.text = "+4" := by
  decide

/-- C10: whether Card fails never depends on the className argument, and on success the
supplied className is appended after all base style classes of the root node. -/
theorem card_className_noninterference (v : Value) (c : Option Color) (s1 s2 : Option String) :
    Except.isOk (Card c v s1) = Except.isOk (Card c v s2) ∧
    ∀ s : String, (Card c v (some s)).map CardNode.rootClasses =
      (Card c v none).map (fun n => n.rootClasses ++ [s]) := by
  cases v <;> cases c <;> exact ⟨rfl, fun s => rfl⟩

/-- C2 counterexample: at value "wild" the claim fails. The display text (the palette
glyph) has length 1, at most 2 characters, so the claim requires the larger size class,
the one "+4" gets; but the render uses "text-3xl", not "text-6xl", and differs from the
class "+4" gets. -/
theorem central_size_claim_false :
    (Card none Value.wild none).map CardNode.centralGlyph = Except.ok "🎨" ∧
    "🎨".length ≤ 2 ∧
    (Card none Value.wild none).map CardNode.centralSize = Except.ok "text-3xl" ∧
    (Card none Value.plus4 none).map CardNode.centralSize = Except.ok "text-6xl" ∧
    ("text-3xl" : String) ≠ "text-6xl" := by
  exact ⟨rfl, by decide, rfl, rfl, by decide⟩

/-- C2 amended: the central-glyph size class is selected by the length of the value's
literal text, not of its display glyph: literal text longer than 2 characters gives
"text-3xl", otherwise "text-6xl". So "+4" (length 2) gets the larger class, while
"wild", "skip" and "reverse" (literal length > 2) get the smaller class even though
they display short glyphs. -/
theorem central_size_from_value_literal (v : Value) (c : Option Color) (cls : Option String)
    (h : Except.isOk (Card c v cls) = true) :
    (Card c v cls).map CardNode.centralSize =
      Except.ok (if 2 < v.text.length then "text-3xl" else "text-6xl") ∧
    Value.plus4.text.length ≤ 2 ∧
    centralSizeClass Value.plus4 = "text-6xl" ∧
    2 < Value.wild.text.length ∧
    centralSizeClass Value.wild = "text-3xl" := by
  cases v <;> cases c <;> first
    | exact Bool.noConfusion h
    | exact ⟨rfl, by decide, rfl, by decide, rfl⟩

/-- C2 witness: the amended sizing law at value "wild" rendered with no color. -/
theorem central_size_from_value_literal_witness :
    Except.isOk (Card none Value.wild none) = true ∧
    ((Card none Value.wild none).map CardNode.centralSize =
      Except.ok (if 2 < Value.wild.text.length then "text-3xl" else "text-6xl") ∧
     Value.plus4.text.length ≤ 2 ∧
     centralSizeClass Value.plus4 = "text-6xl" ∧
     2 < Value.wild.text.length ∧
     centralSizeClass Value.wild = "text-3xl") :=
  ⟨by decide, central_size_from_value_literal Value.wild none none (by decide)⟩

/-- C5: every non-neutral value rendered with a valid color succeeds with the two-stop
gradient of that color from the fixed table, each of the four colors has its own fixed
gradient descriptor, and every neutral render uses the fixed neutral background instead
of the gradient table. -/
theorem colored_render_uses_gradient (v : Value) (c : Color) (cls : Option String)
    (h : v.neutral = false) :
    (Card (some c) v cls).map CardNode.bg =
      Except.ok ("bg-gradient-to-br " ++ colorMap c) ∧
    colorMap Color.pink = "from-pink-400 to-pink-600" ∧
    colorMap Color.orange = "from-orange-300 to-orange-500" ∧
    colorMap Color.lime = "from-lime-300  to-lime-500" ∧
    colorMap Color.violet = "from-violet-400 to-violet-600" ∧
    ∀ w : Value, ∀ oc : Option Color, ∀ ocls : Option String, w.neutral = true →
      (Card oc w ocls).map CardNode.bg = Except.ok "bg-[#1e3a8a]" := by
  refine ⟨?_, rfl, rfl, rfl, rfl, ?_⟩
  · cases v <;> first
      | exact absurd h (by decide)
      | rfl
  · intro w oc ocls hw
    cases w <;> first
      | exact absurd hw (by decide)
      | cases oc <;> rfl

/-- C5 witness: at value "1" with color orange. -/
theorem colored_render_uses_gradient_witness :
    Value.d1.neutral = false ∧
    ((Card (some Color.orange) Value.d1 none).map CardNode.bg =
      Except.ok ("bg-gradient-to-br " ++ colorMap Color.orange) ∧
     colorMap Color.pink = "from-pink-400 to-pink-600" ∧
     colorMap Color.orange = "from-orange-300 to-orange-500" ∧
     colorMap Color.lime = "from-lime-300  to-lime-500" ∧
     colorMap Color.violet = "from-violet-400 to-violet-600" ∧
     ∀ w : Value, ∀ oc : Option Color, ∀ ocls : Option String, w.neutral = true →
       (Card oc w ocls).map CardNode.bg = Except.ok "bg-[#1e3a8a]") :=
  ⟨by decide, colored_render_uses_gradient Value.d1 Color.orange none (by decide)⟩

/-- C6: in every successful render both corner labels show the same glyph as the central
glyph, one sits at the top-left and the other at the bottom-right corner (diagonally
opposite), and only the bottom-right one carries the 180-degree rotation. -/
theorem corner_glyphs_mirror_central (v : Value) (c : Option Color) (cls : Option String)
    (h : Except.isOk (Card c v cls) = true) :
    (Card c v cls).map (fun n => n.corner1.glyph) = (Card c v cls).map CardNode.centralGlyph ∧
    (Card c v cls).map (fun n => n.corner2.glyph) = (Card c v cls).map CardNode.centralGlyph ∧
    (Card c v cls).map (fun n => cornerIsTopLeft n.corner1) = Except.ok true ∧
    (Card c v cls).map (fun n => cornerIsBottomRight n.corner2) = Except.ok true ∧
    (Card c v cls).map (fun n => cornerRotated180 n.corner2) = Except.ok true ∧
    (Card c v cls).map (fun n => cornerRotated180 n.corner1) = Except.ok false := by
  cases v <;> cases c <;> first
    | exact Bool.noConfusion h
    | exact ⟨rfl, rfl, rfl, rfl, rfl, rfl⟩

/-- C6 witness: at value "1" with color orange. -/
theorem corner_glyphs_mirror_central_witness :
    Except.isOk (Card (some Color.orange) Value.d1 none) = true ∧
    ((Card (some Color.orange) Value.d1 none).map (fun n => n.corner1.glyph) =
       (Card (some Color.orange) Value.d1 none).map CardNode.centralGlyph ∧
     (Card (some Color.orange) Value.d1 none).map (fun n => n.corner2.glyph) =
       (Card (some Color.orange) Value.d1 none).map CardNode.centralGlyph ∧
     (Card (some Color.orange) Value.d1 none).map (fun n => cornerIsTopLeft n.corner1) =
       Except.ok true ∧
     (Card (some Color.orange) Value.d1 none).map (fun n => cornerIsBottomRight n.corner2) =
       Except.ok true ∧
     (Card (some Color.orange) Value.d1 none).map (fun n => cornerRotated180 n.corner2) =
       Except.ok true ∧
     (Card (some Color.orange) Value.d1 none).map (fun n => cornerRotated180 n.corner1) =
       Except.ok false) :=
  ⟨by decide, corner_glyphs_mirror_central Value.d1 (some Color.orange) none (by decide)⟩

/-- C7: for every child subtree, DraggableCard configures the gesture primitive with
exactly: drag enabled on both (unconstrained) axes, snap-to-origin on release,
elasticity 0.2, drag-active transform of scale 1.1 and rotation 5 degrees, and a
spring return transition with stiffness 300 and damping 20. -/
theorem draggable_config_exact (α : Type) (child : α) :
    (DraggableCard child).config =
      { drag := DragProp.both
        dragSnapToOrigin := true
        dragElastic := 0.2
        whileDragScale := 1.1
        whileDragRotate := 5
        transitionType := "spring"
        stiffness := 300
        damping := 20
        className := "cursor-grab active:cursor-grabbing" } := rfl

/-- C8: the demo page renders exactly one button, one heading and two drag-wrapped
cards; the wrapped subtrees are the render of the numeric card "1" colored orange
(a successful non-neutral render) and the render of the color-neutral wild card
with no color (also successful), each inside its own DraggableCard. -/
theorem home_composition :
    (Home.filter HomeChild.isButton).length = 1 ∧
    (Home.filter HomeChild.isHeading).length = 1 ∧
    (Home.filter HomeChild.isWrapped).length = 2 ∧
    Home.filterMap HomeChild.wrappedChildren =
      [Card (some Color.orange) Value.d1 none, Card none Value.wild none] ∧
    Value.d1.isDigit = true ∧
    Value.d1.neutral = false ∧
    Except.isOk (Card (some Color.orange) Value.d1 none) = true ∧
    Value.wild.neutral = true ∧
    Except.isOk (Card none Value.wild none) = true :=
  ⟨rfl, rfl, rfl, rfl, rfl, rfl, rfl, rfl, rfl⟩

/-- C9: DraggableCard passes its child subtree through unchanged: the wrapped node's
sole content is exactly the children it was given. -/
theorem draggable_preserves_children (α : Type) (child : α) :
    (DraggableCard child).children = child := rfl
